import Mathlib

/-!
Verification development for the Hurricane-Data-Analysis repository
(src/Hurricane-Data.py).

The Python source is shallowly embedded below.  Conventions:

* Python floats are modelled as rationals (`ℚ`); all the properties under
  study are control-flow and exact-arithmetic properties, never rounding
  properties.
* A parsed data row (the list produced by `read_n_parse_a_storm`) is the
  structure `Obs`; its twenty entries keep their positional meaning, and
  `rowAt` reproduces Python's negative indexing into the numeric tail of
  the row.
* Timestamps (`datetime` values) are modelled as rationals counting
  seconds, which is all `hours_elapsed` observes of them.
* The external geodesy library (`pygeodesy.ellipsoidalVincenty`) is not
  part of the repository; its two methods `distanceTo` and `bearingTo`
  are abstracted as a parameter `Geo` of `Except`-valued functions,
  `Except.error` standing for the `ValueError` the library raises (for
  instance on coincident points).  A `LatLon` value is modelled as its
  pair of signed coordinates (`Pos`), which is what `LatLon` equality
  compares.
* A Python exception that the source does NOT catch is modelled by an
  `Option`-valued result, `none` standing for the uncaught exception.
-/

namespace HurricaneData

/-- Position: a `pygeodesy` `LatLon` value, modelled as its signed
latitude and longitude in degrees (south and west negative).  Two
`LatLon` values are equal iff their signed coordinates are equal. -/
structure Pos where
  lat : ℚ
  lon : ℚ
deriving DecidableEq

/-- Default position used for the (never observed) out-of-range case of
`List.getD` when the embedding indexes a position list. -/
def dPos : Pos := ⟨0, 0⟩

/-- Embeds `flip_direction` (src lines 5-29): given a compass direction
letter, return the opposite; any other string raises `ValueError`,
modelled as `Except.error` carrying the message text. -/
def flip_direction (direction : String) : Except String String :=
  if direction = "E" then Except.ok "W"
  else if direction = "W" then Except.ok "E"
  else if direction = "N" then Except.ok "S"
  else if direction = "S" then Except.ok "N"
  else Except.error ("Invalid or unsupported direction " ++ direction ++ " given.")

/-- Models the external `ev.LatLon(lat, lon)` constructor on already
split numeral/hemisphere pairs: the hemisphere letters `S` and `W`
negate the numeral, anything else (including the absent letter) leaves
it positive, matching the library's default east/north reading. -/
def evLatLon (latNum : ℚ) (latDir : String) (lonNum : ℚ) (lonDir : String) : Pos :=
  ⟨if latDir = "S" then -latNum else latNum,
   if lonDir = "W" then -lonNum else lonNum⟩

/-- Embeds `myLatLon` (src lines 31-58).  The string surgery of the
source (splitting a trailing `E`/`W` letter off the longitude numeral)
is modelled by taking the numeral and the trailing letter (`""` when the
longitude field has no letter) as separate arguments.  When the numeral
exceeds 180 the source rebuilds the longitude as `360 - value` with the
flipped letter; the `ValueError` that `flip_direction` raises there
propagates, hence the `Except` result. -/
def myLatLon (latNum : ℚ) (latDir : String) (lonNum : ℚ) (lonSuffix : String) :
    Except String Pos :=
  let lon_dir := if lonSuffix = "E" ∨ lonSuffix = "W" then lonSuffix else ""
  if 180 < lonNum then
    match flip_direction lon_dir with
    | Except.error e => Except.error e
    | Except.ok d => Except.ok (evLatLon latNum latDir (360 - lonNum) d)
  else
    Except.ok (evLatLon latNum latDir lonNum lon_dir)

/-- Embeds `hours_elapsed` (src lines 60-70) on timestamps measured in
seconds: `abs(t2 - t1).total_seconds() / 3600.0`. -/
def hours_elapsed (t1 t2 : ℚ) : ℚ := |t2 - t1| / 3600

/-- Embeds `degree_normalized` (src lines 102-115) at integer argument.
Python's `abs(degree) // 360` is `|degree| / 360` (both operands
non-negative, so floor and truncating division agree). -/
def degree_normalized (degree : Int) : Int :=
  if degree < 0 then degree + 360 * (|degree| / 360)
  else if degree < 360 then degree
  else degree - 360 * (|degree| / 360)

/-- Embeds `degree_normalized` at float (here: rational) argument, as it
is invoked by `hypothetical_quadrant`; `abs(degree) // 360` on floats is
the floor of the quotient. -/
def degree_normalizedQ (degree : ℚ) : ℚ :=
  if degree < 0 then degree + 360 * ((⌊|degree| / 360⌋ : Int) : ℚ)
  else if degree < 360 then degree
  else degree - 360 * ((⌊|degree| / 360⌋ : Int) : ℚ)

/-- Embeds `degree_2_quadrant` (src lines 117-140). -/
def degree_2_quadrant (degree : ℚ) : String :=
  if degree < 0 then "NA"
  else if degree < 90 then "NE"
  else if degree < 180 then "SE"
  else if degree < 270 then "SW"
  else if degree < 360 then "NW"
  else "NA"

/-- Observation: one parsed data row, i.e. one element of the list that
`read_n_parse_a_storm` returns.  The fields are, in row order: indices
0-7 are storm id, storm name, timestamp, record-identifier flag, status
code, position, max sustained wind, min central pressure; indices 8-19
are the twelve wind-radius extents, tier 34-kt then 50-kt then 64-kt,
each tier in quadrant order NE, SE, SW, NW. -/
structure Obs where
  stormId : String
  stormName : String
  time : ℚ
  flag : String
  status : String
  pos : Pos
  maxWind : Int
  minPressure : Int
  r34ne : Int
  r34se : Int
  r34sw : Int
  r34nw : Int
  r50ne : Int
  r50se : Int
  r50sw : Int
  r50nw : Int
  r64ne : Int
  r64se : Int
  r64sw : Int
  r64nw : Int
deriving DecidableEq

/-- Python negative indexing `row[j]` into the numeric tail of a parsed
row of twenty entries: `row[-1]` is the 64-kt NW extent (index 19) down
to `row[-12]` the 34-kt NE extent (index 8); `row[-13]` and `row[-14]`
are the pressure and wind columns.  `actual_quadrant` only ever reads
`row[-1]` through `row[-12]`; the remaining (non-numeric) indices are
never read and default to 0. -/
def rowAt (row : Obs) (j : Int) : Int :=
  if j = -1 then row.r64nw
  else if j = -2 then row.r64sw
  else if j = -3 then row.r64se
  else if j = -4 then row.r64ne
  else if j = -5 then row.r50nw
  else if j = -6 then row.r50sw
  else if j = -7 then row.r50se
  else if j = -8 then row.r50ne
  else if j = -9 then row.r34nw
  else if j = -10 then row.r34sw
  else if j = -11 then row.r34se
  else if j = -12 then row.r34ne
  else if j = -13 then row.minPressure
  else if j = -14 then row.maxWind
  else 0

/-- Geodesy adapter: the two `pygeodesy` primitives used by the source,
`distanceTo` (metres) and `bearingTo` (degrees), abstracted as functions
that may raise `ValueError` (`Except.error ()`), as the library does on
degenerate input such as coincident points. -/
structure Geo where
  distTo : Pos → Pos → Except Unit ℚ
  bearTo : Pos → Pos → Except Unit ℚ

/-- Possible values of the `datetime` slot of the dictionary returned by
`get_max_wind_and_datetime`: the initial value `dt.datetime` (the class
object itself), the string literal `NA`, or an actual timestamp. -/
inductive DTField where
  | dtType
  | dtNA
  | dtTime (t : ℚ)
deriving DecidableEq

/-- Loop of `get_max_wind_and_datetime` (src lines 80-85): fold over the
rows, updating the running pair whenever `row[6] > highest`. -/
def gmwLoop : List Obs → Int × DTField → Int × DTField
  | [], st => st
  | row :: rest, st =>
    gmwLoop rest (if st.1 < row.maxWind then (row.maxWind, DTField.dtTime row.time) else st)

/-- Embeds `get_max_wind_and_datetime` (src lines 72-88): the returned
dictionary, as the pair (maxwind, datetime). -/
def get_max_wind_and_datetime (storm : List Obs) : Int × DTField :=
  let st := gmwLoop storm (0, DTField.dtType)
  if st.1 = 0 then (st.1, DTField.dtNA) else st

/-- Embeds `get_count_landfall` (src lines 90-100). -/
def get_count_landfall (storm : List Obs) : Nat :=
  storm.foldl (fun count row => if row.flag = "L" then count + 1 else count) 0

/-- Embeds `get_positions` (src lines 194-202). -/
def get_positions (storm : List Obs) : List Pos :=
  storm.map (fun item => item.pos)

/-- Embeds `path_distance` (src lines 204-218): for each adjacent pair
of positions, `distanceTo` in metres divided by 1852; the `ValueError`
from the geodesy library is caught and replaced by 0. -/
def path_distance (geo : Geo) (storm : List Obs) : List ℚ :=
  let positions := get_positions storm
  (List.range (positions.length - 1)).map (fun i =>
    match geo.distTo (positions.getD i dPos) (positions.getD (i + 1) dPos) with
    | Except.error _ => 0
    | Except.ok d => d / 1852)

/-- Embeds `path_propagation_speed` (src lines 220-237): for each
adjacent pair of timestamps, the segment distance divided by the elapsed
hours; the `ZeroDivisionError` raised when the elapsed time is zero is
caught and replaced by 0. -/
def path_propagation_speed (geo : Geo) (storm : List Obs) : List ℚ :=
  let timepoints := storm.map (fun row => row.time)
  (List.range (timepoints.length - 1)).map (fun i =>
    let time_span := hours_elapsed (timepoints.getD i 0) (timepoints.getD (i + 1) 0)
    if time_span = 0 then 0
    else (path_distance geo storm).getD i 0 / time_span)

/-- Report: the dictionary assembled by `storm_report`, with the date
formatting kept as raw timestamps; the `NA` strings that the source
stores for a missing max-wind time or for the speed aggregates of a
segment-less storm are modelled as `none`. -/
structure Report where
  rid : String
  rname : String
  startDate : ℚ
  endDate : ℚ
  maxWind : Int
  whenTime : Option ℚ
  landfalls : Nat
  totalDistance : ℚ
  maxSpeed : Option ℚ
  meanSpeed : Option ℚ
deriving DecidableEq

/-- Embeds `storm_report` (src lines 239-285).  `none` at top level
models the uncaught `IndexError` that `storm[0]` raises on an empty row
list; within the fields, `none` models the `NA` values produced by the
`except AttributeError` / `except ValueError` / `except
ZeroDivisionError` branches of the source. -/
def storm_report (geo : Geo) (storm : List Obs) : Option Report :=
  match storm with
  | [] => none
  | first :: _ =>
    let gmw := get_max_wind_and_datetime storm
    let speeds := path_propagation_speed geo storm
    some
      { rid := first.stormId
        rname := first.stormName
        startDate := first.time
        endDate := (storm.getLast? |>.getD first).time
        maxWind := gmw.1
        whenTime := match gmw.2 with
          | DTField.dtTime t => some t
          | _ => none
        landfalls := get_count_landfall storm
        totalDistance := (path_distance geo storm).foldl (· + ·) 0
        maxSpeed := match speeds with
          | [] => none
          | s :: rest => some (rest.foldl max s)
        meanSpeed := if speeds.length = 0 then none
          else some (speeds.foldl (· + ·) 0 / (speeds.length : ℚ)) }

/-- Embeds the per-segment body of `hypothetical_quadrant` (src lines
297-307): the bearing with the `ValueError` fallback to 0, then the two
normalized and quadrant-mapped bounds. -/
def hypothetical_quadrant (geo : Geo) (storm : List Obs) : List String × List String :=
  let positions := get_positions storm
  (List.range (positions.length - 1)).foldl
    (fun acc i =>
      let degree : ℚ :=
        match geo.bearTo (positions.getD i dPos) (positions.getD (i + 1) dPos) with
        | Except.error _ => 0
        | Except.ok b => b
      (acc.1 ++ [degree_2_quadrant (degree_normalizedQ (degree + 45))],
       acc.2 ++ [degree_2_quadrant (degree_normalizedQ (degree + 90))]))
    ([], [])

/-- Sum `row[index-1] + row[index-2] + row[index-3] + row[index-4]`
tested by the while condition of `actual_quadrant` (src line 324). -/
def tierSum (row : Obs) (index : Int) : Int :=
  rowAt row (index - 1) + rowAt row (index - 2) + rowAt row (index - 3) + rowAt row (index - 4)

/-- Embeds the while loop of `actual_quadrant` (src lines 323-344), one
constructor call per loop iteration.  The loop enters with `index = 0`;
each iteration first decrements `index` by 4 and then inspects the four
columns `row[index-1] .. row[index-4]`.  The guard `index > -7` bounds
the iteration count by 2, so fuel 3 is never exhausted from the entry
point `real_quadrant_row`; the fuel-0 value is arbitrary. -/
def aqLoop (row : Obs) : Nat → Int → String
  | 0, _ => "NA"
  | fuel + 1, index =>
    if tierSum row index ≤ 0 ∧ -7 < index then
      let i2 := index - 4
      let max_val := max (max (rowAt row (i2 - 1)) (rowAt row (i2 - 2)))
        (max (rowAt row (i2 - 3)) (rowAt row (i2 - 4)))
      if rowAt row (i2 - 1) = rowAt row (i2 - 2) ∧ rowAt row (i2 - 2) = rowAt row (i2 - 3) ∧
          rowAt row (i2 - 3) = rowAt row (i2 - 4) then
        aqLoop row fuel i2
      else if max_val = rowAt row (i2 - 4) then "NE"
      else if max_val = rowAt row (i2 - 3) then "SE"
      else if max_val = rowAt row (i2 - 2) then "SW"
      else if max_val = rowAt row (i2 - 1) then "NW"
      else aqLoop row fuel i2
    else "NA"

/-- Body of `actual_quadrant` for one row: `real_quadrant` starts as
`NA` and the while loop may overwrite it. -/
def real_quadrant_row (row : Obs) : String := aqLoop row 3 0

/-- Embeds `actual_quadrant` (src lines 310-346): iterate over
`storm[1:]` (the first row is the start point), keeping the source's
vacuous `len(storm) == 1` skip. -/
def actual_quadrant (storm : List Obs) : List String :=
  (storm.drop 1).foldl
    (fun acc row => if storm.length = 1 then acc else acc ++ [real_quadrant_row row]) []

/-- Loop of `accuracy_rate` (src lines 357-365), walking the elements of
`actual` with their index `i`; `none` models the uncaught `IndexError`
that `hypo_lower[i]` or `hypo_upper[i]` would raise out of range.  The
accesses follow the source's evaluation order: `hypo_lower[i]` is read
only when `actual[i] != 'NA'`, and `hypo_upper[i]` only when the
lower-bound comparison came out false. -/
def accLoop (hypo_lower hypo_upper : List String) :
    List String → Nat → Nat → Nat → Option (Nat × Nat)
  | [], _, c, t => some (c, t)
  | a :: rest, i, c, t =>
    if a = "NA" then accLoop hypo_lower hypo_upper rest (i + 1) c t
    else match hypo_lower[i]? with
      | none => none
      | some l =>
        if a = l then accLoop hypo_lower hypo_upper rest (i + 1) (c + 1) (t + 1)
        else match hypo_upper[i]? with
          | none => none
          | some u =>
            if a = u then accLoop hypo_lower hypo_upper rest (i + 1) (c + 1) (t + 1)
            else accLoop hypo_lower hypo_upper rest (i + 1) c (t + 1)

/-- Embeds `accuracy_rate` (src lines 348-366). -/
def accuracy_rate (actual hypo_lower hypo_upper : List String) : Option (Nat × Nat) :=
  accLoop hypo_lower hypo_upper actual 0 0 0

/-- Per-storm classification as performed by the main block (src lines
404-407): `accuracy_rate` fed the actual list and the two hypothetical
lists of one storm. -/
def classify (geo : Geo) (storm : List Obs) : Option (Nat × Nat) :=
  let hq := hypothetical_quadrant geo storm
  accuracy_rate (actual_quadrant storm) hq.1 hq.2

/-- Dataset-level accumulation of the main block (src lines 391-409):
`storm_correct` and `storm_total` summed over all storms; `none`
propagates an exception raised while classifying a storm. -/
def dataset_tally (geo : Geo) (storms : List (List Obs)) : Option (Nat × Nat) :=
  storms.foldl
    (fun acc storm =>
      match acc, classify geo storm with
      | some (c, t), some (c2, t2) => some (c + c2, t + t2)
      | _, _ => none)
    (some (0, 0))

/-- Embeds the aggregate division of the main block (src line 410):
`storm_correct / storm_total` with NO zero-total guard in the source, so
a zero total raises `ZeroDivisionError`, which no enclosing handler
catches (`except FileNotFoundError` does not match); that uncaught fatal
fault is modelled as `none`. -/
def storm_accuracy_rate (geo : Geo) (storms : List (List Obs)) : Option ℚ :=
  match dataset_tally geo storms with
  | none => none
  | some (c, t) => if t = 0 then none else some ((c : ℚ) / (t : ℚ))

/-- Bearing actually used for segment `i` of a storm: `bearingTo` with
the `ValueError` fallback to 0 (src lines 298-301). -/
def segBearing (geo : Geo) (storm : List Obs) (i : Nat) : ℚ :=
  match geo.bearTo ((get_positions storm).getD i dPos)
      ((get_positions storm).getD (i + 1) dPos) with
  | Except.error _ => 0
  | Except.ok b => b

/-- Selection that the source's if/elif chain performs on the four
quadrant extents of one tier, arguments in quadrant order NE, SE, SW,
NW: the first quadrant in that order whose extent equals the tier
maximum. -/
def tieBreakPick (a b c d : Int) : String :=
  let m := max (max d c) (max b a)
  if m = a then "NE" else if m = b then "SE" else if m = c then "SW" else "NW"

section Fixtures

/-- Test fixture: builds an observation; `radii` lists the twelve
wind-radius extents in row order (34-kt NE, SE, SW, NW, then 50-kt,
then 64-kt), missing entries defaulting to the sentinel -999. -/
def mkObs (t : ℚ) (flag : String) (w : Int) (p : Pos) (radii : List Int) : Obs :=
  { stormId := "AL021851", stormName := "UNNAMED", time := t, flag := flag, status := "HU",
    pos := p, maxWind := w, minPressure := -999,
    r34ne := radii.getD 0 (-999), r34se := radii.getD 1 (-999), r34sw := radii.getD 2 (-999),
    r34nw := radii.getD 3 (-999), r50ne := radii.getD 4 (-999), r50se := radii.getD 5 (-999),
    r50sw := radii.getD 6 (-999), r50nw := radii.getD 7 (-999), r64ne := radii.getD 8 (-999),
    r64se := radii.getD 9 (-999), r64sw := radii.getD 10 (-999), r64nw := radii.getD 11 (-999) }

/-- Test fixture: a geodesy adapter that raises `ValueError` exactly on
coincident points, and otherwise returns 18520 metres (10 NM) and a
bearing of 100 degrees. -/
def geoW : Geo :=
  { distTo := fun a b => if a = b then Except.error () else Except.ok 18520,
    bearTo := fun a b => if a = b then Except.error () else Except.ok 100 }

/-- Test fixture: the single observation of the one-line storm
`AL021851,UNNAMED,1` of the spec's end-to-end example: max wind 80, no
landfall flag, every wind-radius field -999. -/
def obsC5 : Obs := mkObs 0 "" 80 ⟨22, -98⟩ []

/-- Test fixture: a plain first row (the start point of a storm). -/
def obsA : Obs := mkObs 0 "" 30 ⟨20, -60⟩ []

/-- Test fixture: a row whose 64-kt tier holds a positive,
non-all-equal signal (NE 20, SE 10, SW 10, NW 10), the other tiers all
-999. -/
def obsBug : Obs :=
  mkObs 3600 "" 80 ⟨21, -61⟩ [-999, -999, -999, -999, -999, -999, -999, -999, 20, 10, 10, 10]

/-- Test fixture: a row whose 64-kt tier is all -999 and whose 50-kt
tier ties its maximum between NE and NW (NE 10, SE 0, SW 0, NW 10). -/
def obsTie : Obs :=
  mkObs 3600 "" 80 ⟨21, -61⟩ [-999, -999, -999, -999, 10, 0, 0, 10, -999, -999, -999, -999]

/-- Test fixture: a two-observation storm whose two positions
coincide (a stationary segment). -/
def stormD : List Obs := [mkObs 0 "" 30 ⟨20, -60⟩ [], mkObs 3600 "" 35 ⟨20, -60⟩ []]

/-- Test fixture: a two-observation storm with distinct positions. -/
def stormW : List Obs := [obsA, mkObs 21600 "" 50 ⟨21, -61⟩ []]

/-- Test fixture: a storm whose every max-wind field is the -99
sentinel. -/
def stormS : List Obs := [mkObs 0 "" (-99) ⟨20, -60⟩ [], mkObs 3600 "" (-99) ⟨21, -61⟩ []]

/-- Test fixture: a storm with positive winds 30, 50, 50: the maximum
50 is first attained by the second observation. -/
def stormP : List Obs :=
  [mkObs 0 "" 30 ⟨20, -60⟩ [], mkObs 3600 "" 50 ⟨21, -61⟩ [], mkObs 7200 "" 50 ⟨22, -62⟩ []]

end Fixtures

/-- Helper: a fold that appends one image per element is a map. -/
theorem foldl_append_map {α β : Type} (f : α → β) (l : List α) (acc : List β) :
    l.foldl (fun a x => a ++ [f x]) acc = acc ++ l.map f := by
  induction l generalizing acc with
  | nil => simp
  | cons x xs ih => simp [ih]

/-- Helper: the paired fold of `hypothetical_quadrant` is a pair of
maps. -/
theorem foldl_pair_append {α : Type} (f g : α → String) (l : List α) (a b : List String) :
    l.foldl (fun acc x => (acc.1 ++ [f x], acc.2 ++ [g x])) (a, b) =
      (a ++ l.map f, b ++ l.map g) := by
  induction l generalizing a b with
  | nil => simp
  | cons x xs ih => simp [ih]

/-- Helper: closed form of `hypothetical_quadrant` as two maps over the
segment indices. -/
theorem hypothetical_quadrant_eq (geo : Geo) (storm : List Obs) :
    hypothetical_quadrant geo storm =
      ((List.range ((get_positions storm).length - 1)).map
        (fun i => degree_2_quadrant (degree_normalizedQ (segBearing geo storm i + 45))),
       (List.range ((get_positions storm).length - 1)).map
        (fun i => degree_2_quadrant (degree_normalizedQ (segBearing geo storm i + 90)))) := by
  have h := foldl_pair_append
    (fun i => degree_2_quadrant (degree_normalizedQ (segBearing geo storm i + 45)))
    (fun i => degree_2_quadrant (degree_normalizedQ (segBearing geo storm i + 90)))
    (List.range ((get_positions storm).length - 1)) [] []
  simpa [hypothetical_quadrant, segBearing] using h

/-- Helper: outside the vacuous single-row case, `actual_quadrant` maps
`real_quadrant_row` over the rows after the first. -/
theorem actual_quadrant_eq (storm : List Obs) (h : storm.length ≠ 1) :
    actual_quadrant storm = (storm.drop 1).map real_quadrant_row := by
  unfold actual_quadrant
  simp only [if_neg h]
  exact foldl_append_map real_quadrant_row (storm.drop 1) []

/-- Helper: `actual_quadrant` yields one entry per segment. -/
theorem actual_quadrant_length (storm : List Obs) :
    (actual_quadrant storm).length = storm.length - 1 := by
  by_cases h : storm.length = 1
  · obtain ⟨o, rfl⟩ : ∃ o, storm = [o] := by
      cases storm with
      | nil => exact absurd h (by simp)
      | cons a l =>
        cases l with
        | nil => exact ⟨a, rfl⟩
        | cons b l2 => exact absurd h (by simp)
    rfl
  · rw [actual_quadrant_eq storm h]
    simp

/-- Helper: the while loop exits with the row's `real_quadrant` still
`NA` when its guard fails. -/
theorem aqLoop_guard_false (row : Obs) (fuel : Nat) (index : Int)
    (h : ¬(tierSum row index ≤ 0 ∧ -7 < index)) :
    aqLoop row (fuel + 1) index = "NA" := by
  conv_lhs => rw [aqLoop]
  rw [if_neg h]

/-- Helper: one unfolding of the while loop when its guard holds. -/
theorem aqLoop_guard_true (row : Obs) (fuel : Nat) (index : Int)
    (h : tierSum row index ≤ 0 ∧ -7 < index) :
    aqLoop row (fuel + 1) index =
      (if rowAt row (index - 4 - 1) = rowAt row (index - 4 - 2) ∧
          rowAt row (index - 4 - 2) = rowAt row (index - 4 - 3) ∧
          rowAt row (index - 4 - 3) = rowAt row (index - 4 - 4) then
        aqLoop row fuel (index - 4)
      else if max (max (rowAt row (index - 4 - 1)) (rowAt row (index - 4 - 2)))
            (max (rowAt row (index - 4 - 3)) (rowAt row (index - 4 - 4))) =
          rowAt row (index - 4 - 4) then "NE"
      else if max (max (rowAt row (index - 4 - 1)) (rowAt row (index - 4 - 2)))
            (max (rowAt row (index - 4 - 3)) (rowAt row (index - 4 - 4))) =
          rowAt row (index - 4 - 3) then "SE"
      else if max (max (rowAt row (index - 4 - 1)) (rowAt row (index - 4 - 2)))
            (max (rowAt row (index - 4 - 3)) (rowAt row (index - 4 - 4))) =
          rowAt row (index - 4 - 2) then "SW"
      else if max (max (rowAt row (index - 4 - 1)) (rowAt row (index - 4 - 2)))
            (max (rowAt row (index - 4 - 3)) (rowAt row (index - 4 - 4))) =
          rowAt row (index - 4 - 1) then "NW"
      else aqLoop row fuel (index - 4)) := by
  conv_lhs => rw [aqLoop]
  rw [if_pos h]

/-- Helper: the source's if/elif chain over one tier equals
`tieBreakPick`; its final `continue` fallthrough (value `x`) is dead
because the maximum of four values is one of them. -/
theorem chain_eq_tieBreakPick (a b c d : Int) (x : String) :
    (if max (max d c) (max b a) = a then "NE"
     else if max (max d c) (max b a) = b then "SE"
     else if max (max d c) (max b a) = c then "SW"
     else if max (max d c) (max b a) = d then "NW"
     else x) = tieBreakPick a b c d := by
  have hm : max (max d c) (max b a) = d ∨ max (max d c) (max b a) = c ∨
      max (max d c) (max b a) = b ∨ max (max d c) (max b a) = a := by
    rcases max_choice (max d c) (max b a) with h | h
    · rcases max_choice d c with h2 | h2
      · exact Or.inl (h.trans h2)
      · exact Or.inr (Or.inl (h.trans h2))
    · rcases max_choice b a with h2 | h2
      · exact Or.inr (Or.inr (Or.inl (h.trans h2)))
      · exact Or.inr (Or.inr (Or.inr (h.trans h2)))
  simp only [tieBreakPick]
  split_ifs with h1 h2 h3 h4 <;> try rfl
  rcases hm with h | h | h | h <;> first
    | exact absurd h h4
    | exact absurd h h3
    | exact absurd h h2
    | exact absurd h h1

/-- Helper: closed form of the per-row while loop of `actual_quadrant`.
Note the off-by-one of the source: the tier whose sum gates an
iteration is one tier ABOVE the tier the iteration selects from, so a
positive 64-kt sum exits immediately with `NA` and the 64-kt extents
are never the tier selected from. -/
theorem real_quadrant_row_closed (row : Obs) :
    real_quadrant_row row =
      (if row.r64nw + row.r64sw + row.r64se + row.r64ne ≤ 0 then
        if row.r50nw = row.r50sw ∧ row.r50sw = row.r50se ∧ row.r50se = row.r50ne then
          if row.r50nw + row.r50sw + row.r50se + row.r50ne ≤ 0 then
            if row.r34nw = row.r34sw ∧ row.r34sw = row.r34se ∧ row.r34se = row.r34ne then "NA"
            else tieBreakPick row.r34ne row.r34se row.r34sw row.r34nw
          else "NA"
        else tieBreakPick row.r50ne row.r50se row.r50sw row.r50nw
      else "NA") := by
  have e64 : tierSum row 0 = row.r64nw + row.r64sw + row.r64se + row.r64ne := rfl
  have e50 : tierSum row (-4) = row.r50nw + row.r50sw + row.r50se + row.r50ne := rfl
  unfold real_quadrant_row
  by_cases h64 : row.r64nw + row.r64sw + row.r64se + row.r64ne ≤ 0
  · rw [if_pos h64]
    have step1 := aqLoop_guard_true row 2 0 ⟨by rw [e64]; exact h64, by norm_num⟩
    norm_num [rowAt] at step1
    rw [step1]
    by_cases hq50 : row.r50nw = row.r50sw ∧ row.r50sw = row.r50se ∧ row.r50se = row.r50ne
    · rw [if_pos hq50, if_pos hq50]
      by_cases h50 : row.r50nw + row.r50sw + row.r50se + row.r50ne ≤ 0
      · rw [if_pos h50]
        have step2 := aqLoop_guard_true row 1 (-4) ⟨by rw [e50]; exact h50, by norm_num⟩
        norm_num [rowAt] at step2
        rw [step2]
        by_cases hq34 : row.r34nw = row.r34sw ∧ row.r34sw = row.r34se ∧ row.r34se = row.r34ne
        · rw [if_pos hq34, if_pos hq34]
          exact aqLoop_guard_false row 0 (-8) (by norm_num)
        · rw [if_neg hq34, if_neg hq34]
          rw [aqLoop_guard_false row 0 (-8) (by norm_num)]
          exact chain_eq_tieBreakPick row.r34ne row.r34se row.r34sw row.r34nw "NA"
      · rw [if_neg h50]
        exact aqLoop_guard_false row 1 (-4) (by rw [e50]; omega)
    · rw [if_neg hq50, if_neg hq50]
      exact chain_eq_tieBreakPick row.r50ne row.r50se row.r50sw row.r50nw (aqLoop row 2 (-4))
  · rw [if_neg h64]
    exact aqLoop_guard_false row 2 0 (by rw [e64]; omega)

/-- C1: contrary to the claim (and to the docstring of
`actual_quadrant`), whenever the 64-kt tier of an observation has a
positive sum — in particular whenever it carries a positive,
non-all-equal signal — the while loop's guard is false at its first
test and the scan exits immediately, so the actual quadrant is `NA`:
the 64-kt argmax is never selected. -/
theorem actual_quadrant_pos64_NA (o row : Obs)
    (h : 0 < row.r64nw + row.r64sw + row.r64se + row.r64ne) :
    actual_quadrant [o, row] = ["NA"] := by
  rw [actual_quadrant_eq [o, row] (by simp)]
  show [real_quadrant_row row] = ["NA"]
  rw [real_quadrant_row_closed, if_neg (by omega)]

/-- Witness for C1: the concrete row `obsBug` has 64-kt extents
NE 20, SE 10, SW 10, NW 10 — positive and not all equal — yet the
computed actual quadrant is `NA`, not `NE`. -/
theorem actual_quadrant_pos64_NA_witness :
    actual_quadrant [obsA, obsBug] = ["NA"] :=
  actual_quadrant_pos64_NA obsA obsBug (by decide)

/-- C2: contrary to the claim (and to the docstring of
`degree_normalized`), the function is not into [0, 360): at the integer
-1 it returns -1, and periodicity fails since -1 + 360 maps to 359. -/
theorem degree_normalized_out_of_range :
    degree_normalized (-1) = -1 ∧ ¬(0 ≤ degree_normalized (-1)) ∧
      degree_normalized (-1 + 360 * 1) ≠ degree_normalized (-1) := by decide

/-- C4: contrary to the claim, the dataset-level division has no
explicit zero-total check: on a dataset whose only storm is the
single-observation storm `[obsC5]`, the summed tally is `(0, 0)` and
the unguarded `storm_correct / storm_total` of the main block raises an
uncaught `ZeroDivisionError` (modelled as `none`) instead of reporting
the accuracy as unavailable. -/
theorem storm_accuracy_rate_zero_total_faults (geo : Geo) :
    dataset_tally geo [[obsC5]] = some (0, 0) ∧
      storm_accuracy_rate geo [[obsC5]] = none := by
  constructor <;> rfl

/-- C5: a storm of exactly one observation without the landfall flag
reports 0 landfalls, total distance 0, max and mean speed unavailable,
and classifies as `(0, 0)`. -/
theorem single_observation_storm (geo : Geo) (o : Obs) (hflag : o.flag ≠ "L") :
    (∃ rep, storm_report geo [o] = some rep ∧ rep.landfalls = 0 ∧ rep.totalDistance = 0 ∧
      rep.maxSpeed = none ∧ rep.meanSpeed = none) ∧
    classify geo [o] = some (0, 0) := by
  refine ⟨⟨_, rfl, ?_, rfl, rfl, rfl⟩, rfl⟩
  simp [storm_report, get_count_landfall, hflag]

/-- Witness for C5: the spec's end-to-end example, a single observation
with max wind 80, empty record-identifier flag and every wind radius
-999, under the concrete geodesy fixture. -/
theorem single_observation_storm_witness :
    (∃ rep, storm_report geoW [obsC5] = some rep ∧ rep.landfalls = 0 ∧ rep.totalDistance = 0 ∧
      rep.maxSpeed = none ∧ rep.meanSpeed = none) ∧
    classify geoW [obsC5] = some (0, 0) :=
  single_observation_storm geoW obsC5 (by decide)

/-- C9 counterexample: in the row `obsTie` the examined 50-kt tier ties
its maximum between NE and NW; the claim's tie-break order (NW wins
over NE) would select `NW`, but the code selects `NE`. -/
theorem actual_quadrant_tie_selects_NE :
    obsTie.r50ne = obsTie.r50nw ∧ obsTie.r50se < obsTie.r50ne ∧ obsTie.r50sw < obsTie.r50ne ∧
      obsTie.r64ne + obsTie.r64se + obsTie.r64sw + obsTie.r64nw ≤ 0 ∧
      actual_quadrant [obsA, obsTie] = ["NE"] := by decide

/-- C9 amended: when the 64-kt gate lets the scan reach the 50-kt tier
and that tier is not all equal, ties for the tier maximum are resolved
by field order NE over SE over SW over NW (`tieBreakPick`), the reverse
of the order the claim states. -/
theorem actual_quadrant_tie_break (o row : Obs)
    (h64 : row.r64nw + row.r64sw + row.r64se + row.r64ne ≤ 0)
    (hne : ¬(row.r50nw = row.r50sw ∧ row.r50sw = row.r50se ∧ row.r50se = row.r50ne)) :
    actual_quadrant [o, row] = [tieBreakPick row.r50ne row.r50se row.r50sw row.r50nw] := by
  rw [actual_quadrant_eq [o, row] (by simp)]
  show [real_quadrant_row row] = _
  rw [real_quadrant_row_closed, if_pos h64, if_neg hne]

/-- Witness for C9: the amended tie-break applied to the concrete tied
row `obsTie`. -/
theorem actual_quadrant_tie_break_witness :
    actual_quadrant [obsA, obsTie] =
      [tieBreakPick obsTie.r50ne obsTie.r50se obsTie.r50sw obsTie.r50nw] :=
  actual_quadrant_tie_break obsA obsTie (by decide) (by decide)

/-- C7: the longitude normalization round trip — `45.1N property, 2.0E`
builds the same position as `45.1N, 358.0W`; in general any longitude
numeral exceeding 180 is replaced by 360 minus it with the `E`/`W`
letter flipped before the position is built, and flipping any letter
outside N, E, S, W fails with the `ValueError` of `flip_direction`. -/
theorem longitude_normalization (lat : ℚ) (latDir : String) :
    myLatLon 45.1 "N" 2 "E" = myLatLon 45.1 "N" 358 "W" ∧
    (∀ lonNum : ℚ, 180 < lonNum →
      myLatLon lat latDir lonNum "E" = Except.ok (evLatLon lat latDir (360 - lonNum) "W") ∧
      myLatLon lat latDir lonNum "W" = Except.ok (evLatLon lat latDir (360 - lonNum) "E")) ∧
    (∀ d : String, d ≠ "N" → d ≠ "E" → d ≠ "S" → d ≠ "W" →
      flip_direction d = Except.error ("Invalid or unsupported direction " ++ d ++ " given.")) := by
  refine ⟨?_, ?_, ?_⟩
  · simp +decide [myLatLon, flip_direction, evLatLon]
    norm_num
  · intro lonNum hl
    constructor
    · simp [myLatLon, flip_direction, hl]
    · simp [myLatLon, flip_direction, hl]
  · intro d h1 h2 h3 h4
    simp [flip_direction, h1, h2, h3, h4]

/-- Witness for C7: the general rule applied to `358.0W`, and the
unsupported direction `SE`. -/
theorem longitude_normalization_witness :
    myLatLon 45 "N" 358 "W" = Except.ok (evLatLon 45 "N" (360 - 358) "E") ∧
    flip_direction "SE" = Except.error ("Invalid or unsupported direction " ++ "SE" ++ " given.") :=
  ⟨((longitude_normalization 45 "N").2.1 358 (by decide)).2,
   (longitude_normalization 45 "N").2.2 "SE" (by decide) (by decide) (by decide) (by decide)⟩

/-- C8: the hypothetical quadrant range of segment `i` is the pair
`degree_2_quadrant (degree_normalizedQ (b + 45))`,
`degree_2_quadrant (degree_normalizedQ (b + 90))` where `b` is the
segment bearing (with fallback 0), and `degree_2_quadrant` maps
[0,90) to NE, [90,180) to SE, [180,270) to SW, [270,360) to NW, and
anything outside [0,360) to NA. -/
theorem hypothetical_quadrant_spec (geo : Geo) (storm : List Obs) (i : Nat)
    (hi : i < storm.length - 1) :
    (hypothetical_quadrant geo storm).1[i]? =
      some (degree_2_quadrant (degree_normalizedQ (segBearing geo storm i + 45))) ∧
    (hypothetical_quadrant geo storm).2[i]? =
      some (degree_2_quadrant (degree_normalizedQ (segBearing geo storm i + 90))) ∧
    (∀ d : ℚ, (0 ≤ d ∧ d < 90 → degree_2_quadrant d = "NE") ∧
      (90 ≤ d ∧ d < 180 → degree_2_quadrant d = "SE") ∧
      (180 ≤ d ∧ d < 270 → degree_2_quadrant d = "SW") ∧
      (270 ≤ d ∧ d < 360 → degree_2_quadrant d = "NW") ∧
      (d < 0 ∨ 360 ≤ d → degree_2_quadrant d = "NA")) := by
  have hlen : (get_positions storm).length = storm.length := by simp [get_positions]
  refine ⟨?_, ?_, ?_⟩
  · rw [hypothetical_quadrant_eq, List.getElem?_map, List.getElem?_range (by omega)]
    rfl
  · rw [hypothetical_quadrant_eq, List.getElem?_map, List.getElem?_range (by omega)]
    rfl
  · intro d
    unfold degree_2_quadrant
    refine ⟨?_, ?_, ?_, ?_, ?_⟩
    · intro hd; split_ifs <;> first | rfl | linarith [hd.1, hd.2]
    · intro hd; split_ifs <;> first | rfl | linarith [hd.1, hd.2]
    · intro hd; split_ifs <;> first | rfl | linarith [hd.1, hd.2]
    · intro hd; split_ifs <;> first | rfl | linarith [hd.1, hd.2]
    · intro hd; rcases hd with hd | hd <;> split_ifs <;> first | rfl | linarith

/-- Witness for C8: both bounds of the first segment of the concrete
two-observation storm. -/
theorem hypothetical_quadrant_spec_witness :
    (hypothetical_quadrant geoW stormW).1[0]? =
      some (degree_2_quadrant (degree_normalizedQ (segBearing geoW stormW 0 + 45))) ∧
    (hypothetical_quadrant geoW stormW).2[0]? =
      some (degree_2_quadrant (degree_normalizedQ (segBearing geoW stormW 0 + 90))) :=
  ⟨(hypothetical_quadrant_spec geoW stormW 0 (by decide)).1,
   (hypothetical_quadrant_spec geoW stormW 0 (by decide)).2.1⟩

/-- C6: on a segment whose endpoints coincide, given that the geodesy
primitives raise their degenerate-input failure there, the engines
catch it locally: the segment distance is 0, the propagation speed is
0, and the hypothetical bounds are computed from the substituted
bearing 0; nothing propagates (the embedded functions are total). -/
theorem degenerate_segment_caught (geo : Geo) (storm : List Obs) (i : Nat)
    (hi : i + 1 < storm.length)
    (_hpos : (get_positions storm).getD i dPos = (get_positions storm).getD (i + 1) dPos)
    (hd : geo.distTo ((get_positions storm).getD i dPos) ((get_positions storm).getD (i + 1) dPos) =
      Except.error ())
    (hb : geo.bearTo ((get_positions storm).getD i dPos) ((get_positions storm).getD (i + 1) dPos) =
      Except.error ()) :
    (path_distance geo storm)[i]? = some 0 ∧
    (path_propagation_speed geo storm)[i]? = some 0 ∧
    (hypothetical_quadrant geo storm).1[i]? =
      some (degree_2_quadrant (degree_normalizedQ (0 + 45))) ∧
    (hypothetical_quadrant geo storm).2[i]? =
      some (degree_2_quadrant (degree_normalizedQ (0 + 90))) := by
  have hlen : (get_positions storm).length = storm.length := by simp [get_positions]
  have hsb : segBearing geo storm i = 0 := by
    unfold segBearing
    rw [hb]
  have hdist : (path_distance geo storm)[i]? = some 0 := by
    unfold path_distance
    rw [List.getElem?_map, List.getElem?_range (by omega)]
    simp only [Option.map_some']
    refine congrArg some ?_
    rw [hd]
  refine ⟨hdist, ?_, ?_, ?_⟩
  · unfold path_propagation_speed
    rw [List.getElem?_map, List.getElem?_range (by simp; omega)]
    have hg : (path_distance geo storm).getD i 0 = 0 := by
      rw [List.getD_eq_getElem?_getD, hdist]
      rfl
    simp only [Option.map_some']
    refine congrArg some ?_
    rw [hg]
    split <;> simp
  · rw [hypothetical_quadrant_eq, List.getElem?_map, List.getElem?_range (by omega)]
    simp only [Option.map_some']
    rw [hsb]
  · rw [hypothetical_quadrant_eq, List.getElem?_map, List.getElem?_range (by omega)]
    simp only [Option.map_some']
    rw [hsb]

/-- Witness for C6: the stationary two-observation storm `stormD`
under the fixture geodesy adapter, which errors on coincident
points. -/
theorem degenerate_segment_caught_witness :
    (path_distance geoW stormD)[0]? = some 0 ∧
    (path_propagation_speed geoW stormD)[0]? = some 0 ∧
    (hypothetical_quadrant geoW stormD).1[0]? =
      some (degree_2_quadrant (degree_normalizedQ (0 + 45))) ∧
    (hypothetical_quadrant geoW stormD).2[0]? =
      some (degree_2_quadrant (degree_normalizedQ (0 + 90))) :=
  degenerate_segment_caught geoW stormD 0 (by decide) (by decide) rfl rfl

/-- Helper: the loop of `accuracy_rate` never hits an out-of-range
index — hence returns a pair — when the two hypothetical lists are at
least as long as the remaining actual entries require. -/
theorem accLoop_total (hl hu : List String) :
    ∀ (act : List String) (i c t : Nat), i + act.length ≤ hl.length →
      i + act.length ≤ hu.length → ∃ ct, accLoop hl hu act i c t = some ct := by
  intro act
  induction act with
  | nil => intro i c t _ _; exact ⟨(c, t), rfl⟩
  | cons a rest ih =>
    intro i c t h1 h2
    simp only [List.length_cons] at h1 h2
    have hil : i < hl.length := by omega
    have hiu : i < hu.length := by omega
    unfold accLoop
    by_cases hna : a = "NA"
    · rw [if_pos hna]
      exact ih (i + 1) c t (by omega) (by omega)
    · rw [if_neg hna, List.getElem?_eq_getElem hil]
      dsimp only
      by_cases h3 : a = hl[i]
      · rw [if_pos h3]
        exact ih (i + 1) (c + 1) (t + 1) (by omega) (by omega)
      · rw [if_neg h3, List.getElem?_eq_getElem hiu]
        dsimp only
        by_cases h4 : a = hu[i]
        · rw [if_pos h4]
          exact ih (i + 1) (c + 1) (t + 1) (by omega) (by omega)
        · rw [if_neg h4]
          exact ih (i + 1) c (t + 1) (by omega) (by omega)

/-- C10: for any storm the three classifier lists all have length one
less than the observation count, and `accuracy_rate` fed the three
lists of one storm never raises an index error (it returns a pair). -/
theorem classify_in_bounds (geo : Geo) (storm : List Obs) (_h : storm ≠ []) :
    (actual_quadrant storm).length = storm.length - 1 ∧
    (hypothetical_quadrant geo storm).1.length = storm.length - 1 ∧
    (hypothetical_quadrant geo storm).2.length = storm.length - 1 ∧
    ∃ ct, classify geo storm = some ct := by
  have h1 := actual_quadrant_length storm
  have h2 : (hypothetical_quadrant geo storm).1.length = storm.length - 1 := by
    rw [hypothetical_quadrant_eq]
    simp [get_positions]
  have h3 : (hypothetical_quadrant geo storm).2.length = storm.length - 1 := by
    rw [hypothetical_quadrant_eq]
    simp [get_positions]
  refine ⟨h1, h2, h3, ?_⟩
  unfold classify accuracy_rate
  exact accLoop_total _ _ _ 0 0 0 (by omega) (by omega)

/-- Witness for C10: the classifier lists of the concrete
two-observation storm `stormW` have length 1 and its classification
returns a pair. -/
theorem classify_in_bounds_witness :
    (actual_quadrant stormW).length = stormW.length - 1 ∧
    (hypothetical_quadrant geoW stormW).1.length = stormW.length - 1 ∧
    (hypothetical_quadrant geoW stormW).2.length = stormW.length - 1 ∧
    ∃ ct, classify geoW stormW = some ct :=
  classify_in_bounds geoW stormW (by decide)

/-- Helper: invariant of the fold of `get_max_wind_and_datetime`: the
running maximum only grows, it bounds every wind of the processed rows,
and either no update happened (the state is returned unchanged) or the
final state records a strictly larger maximum together with the time
of the first row attaining it. -/
theorem gmwLoop_inv (l : List Obs) :
    ∀ st : Int × DTField,
      st.1 ≤ (gmwLoop l st).1 ∧
      (∀ r ∈ l, r.maxWind ≤ (gmwLoop l st).1) ∧
      (gmwLoop l st = st ∨
        (st.1 < (gmwLoop l st).1 ∧
         ∃ r0, l.find? (fun r => r.maxWind == (gmwLoop l st).1) = some r0 ∧
           (gmwLoop l st).2 = DTField.dtTime r0.time)) := by
  induction l with
  | nil =>
    intro st
    exact ⟨le_refl _, by simp, Or.inl rfl⟩
  | cons a rest ih =>
    intro st
    by_cases hup : st.1 < a.maxWind
    · have hstep : gmwLoop (a :: rest) st = gmwLoop rest (a.maxWind, DTField.dtTime a.time) := by
        show gmwLoop rest (if st.1 < a.maxWind then (a.maxWind, DTField.dtTime a.time) else st) =
          gmwLoop rest (a.maxWind, DTField.dtTime a.time)
        rw [if_pos hup]
      obtain ⟨ih1, ih2, ih3⟩ := ih (a.maxWind, DTField.dtTime a.time)
      simp only at ih1
      rw [hstep]
      refine ⟨le_trans (le_of_lt hup) ih1, ?_, ?_⟩
      · intro r hr
        rcases List.mem_cons.mp hr with rfl | hr
        · exact ih1
        · exact ih2 r hr
      · rcases ih3 with heq | ⟨hlt, r0, hfind, htime⟩
        · right
          rw [heq]
          refine ⟨hup, a, ?_, rfl⟩
          rw [List.find?_cons_of_pos]
          simp
        · right
          simp only at hlt
          refine ⟨lt_trans hup hlt, r0, ?_, htime⟩
          rw [List.find?_cons_of_neg]
          · exact hfind
          · simp only [beq_iff_eq]
            omega
    · have hstep : gmwLoop (a :: rest) st = gmwLoop rest st := by
        show gmwLoop rest (if st.1 < a.maxWind then (a.maxWind, DTField.dtTime a.time) else st) =
          gmwLoop rest st
        rw [if_neg hup]
      obtain ⟨ih1, ih2, ih3⟩ := ih st
      rw [hstep]
      refine ⟨ih1, ?_, ?_⟩
      · intro r hr
        rcases List.mem_cons.mp hr with rfl | hr
        · exact le_trans (not_lt.mp hup) ih1
        · exact ih2 r hr
      · rcases ih3 with heq | ⟨hlt, r0, hfind, htime⟩
        · exact Or.inl heq
        · right
          refine ⟨hlt, r0, ?_, htime⟩
          rw [List.find?_cons_of_neg]
          · exact hfind
          · have haw : a.maxWind ≤ st.1 := not_lt.mp hup
            simp only [beq_iff_eq]
            omega

/-- C3: when some observation has a positive wind,
`get_max_wind_and_datetime` returns a maximum that bounds every
recorded wind together with the timestamp of the FIRST observation
attaining it; and when every observation's wind is the -99 sentinel it
returns the `NA` datetime (the "no maximum" report) instead of a
0-knot record with a timestamp. -/
theorem get_max_wind_and_datetime_spec (storm : List Obs) :
    ((∀ r ∈ storm, r.maxWind = -99) →
      (get_max_wind_and_datetime storm).2 = DTField.dtNA) ∧
    ((∃ r ∈ storm, 0 < r.maxWind) →
      (∀ r ∈ storm, r.maxWind ≤ (get_max_wind_and_datetime storm).1) ∧
      0 < (get_max_wind_and_datetime storm).1 ∧
      ∃ r0, storm.find? (fun r => r.maxWind == (get_max_wind_and_datetime storm).1) = some r0 ∧
        (get_max_wind_and_datetime storm).2 = DTField.dtTime r0.time) := by
  obtain ⟨h1, h2, h3⟩ := gmwLoop_inv storm (0, DTField.dtType)
  simp only at h1
  constructor
  · intro hall
    have hres : gmwLoop storm (0, DTField.dtType) = (0, DTField.dtType) := by
      rcases h3 with heq | ⟨hlt, r0, hfind, _⟩
      · exact heq
      · exfalso
        have hr0 : r0 ∈ storm := List.mem_of_find?_eq_some hfind
        have hp : r0.maxWind = (gmwLoop storm (0, DTField.dtType)).1 := by
          simpa using List.find?_some hfind
        have h99 := hall r0 hr0
        simp only at hlt
        omega
    simp only [get_max_wind_and_datetime]
    rw [hres]
    rfl
  · intro hex
    obtain ⟨r, hr, hrpos⟩ := hex
    have hpos : 0 < (gmwLoop storm (0, DTField.dtType)).1 := lt_of_lt_of_le hrpos (h2 r hr)
    have hne : ¬((gmwLoop storm (0, DTField.dtType)).1 = 0) := by omega
    have hget : get_max_wind_and_datetime storm = gmwLoop storm (0, DTField.dtType) := by
      simp only [get_max_wind_and_datetime]
      rw [if_neg hne]
    rw [hget]
    refine ⟨h2, hpos, ?_⟩
    rcases h3 with heq | ⟨_, r0, hfind, htime⟩
    · exfalso
      rw [heq] at hpos
      exact absurd hpos (by norm_num)
    · exact ⟨r0, hfind, htime⟩

/-- Witness for C3: the all-sentinel storm `stormS` reports the `NA`
datetime, and for the storm `stormP` (winds 30, 50, 50) every wind is
bounded by the reported positive maximum. -/
theorem get_max_wind_and_datetime_spec_witness :
    (get_max_wind_and_datetime stormS).2 = DTField.dtNA ∧
    (∀ r ∈ stormP, r.maxWind ≤ (get_max_wind_and_datetime stormP).1) ∧
    0 < (get_max_wind_and_datetime stormP).1 :=
  ⟨(get_max_wind_and_datetime_spec stormS).1 (by decide),
   ((get_max_wind_and_datetime_spec stormP).2
     ⟨mkObs 3600 "" 50 ⟨21, -61⟩ [], by decide, by decide⟩).1,
   ((get_max_wind_and_datetime_spec stormP).2
     ⟨mkObs 3600 "" 50 ⟨21, -61⟩ [], by decide, by decide⟩).2.1⟩

end HurricaneData
